import Mathlib

/-!
Shallow embedding of the resolution core of *Depths of Ascension*
(tick scheduler `game/api/game-tick.js`, combat engine `combat-system.js`,
game engine `game-engine.js`), together with theorems checking the
natural-language specification against it.

Modelling conventions:
* JS numbers that only ever hold integers are embedded as `Int`
  (or `Nat` where the source guarantees non-negativity, e.g. die faces).
* `Math.random()`-derived values are injected as explicit parameters
  (die faces, progression draws), making every function deterministic.
* JS objects are records; missing-field defaulting (`x || 0`,
  `obj?.field`) is embedded with `Option` and `getD`.
* Mutation of a passed-in object is embedded as state passing: a function
  that may mutate an object returns the updated object alongside its
  result.  A function whose body contains no assignment to an argument
  returns that argument unchanged.
-/

/-- A character's / enemy's skill map `{skill_id: level}`, embedded as an
association list (JS object keyed by skill id, integer levels). -/
def Skills := List (String × Nat)

/-- Lookup of `skills[skillId] || 0`: an absent key defaults to level 0. -/
def getSkill (skills : Skills) (skillId : String) : Nat :=
  (List.lookup skillId skills).getD 0

/-- Assignment `skills[skillId] = lvl` on the association list: replaces the
first binding of the key, or appends it. -/
def setSkill : List (String × Nat) → String → Nat → List (String × Nat)
  | [], skillId, lvl => [(skillId, lvl)]
  | (k, v) :: rest, skillId, lvl =>
      if k = skillId then (k, lvl) :: rest
      else (k, v) :: setSkill rest skillId lvl

/-- Equipped item slots (`character.equipment`); only `main_hand` is read by
the combat engine. -/
structure Equipment where
  main_hand : Option String
  deriving Repr, DecidableEq

/-- A combatant: the fields of the JS character / enemy objects that the
combat engine and the command handlers read or write. -/
structure Combatant where
  character_id : Nat := 0
  character_name : String := ""
  current_hp : Int := 0
  max_hp : Int := 0
  current_energy : Int := 0
  skills : List (String × Nat) := []
  equipment : Option Equipment := none
  inventory : List String := []
  x_position : Int := 0
  y_position : Int := 0
  status : String := "active"
  deriving Repr, DecidableEq

namespace CombatSystem

/-- Modifier object `{item: 0, buffs: 0, debuffs: 0, ability: 0}`; JS
`modifiers.x || 0` defaulting is embedded by the field defaults. -/
structure Modifiers where
  item : Int := 0
  buffs : Int := 0
  debuffs : Int := 0
  ability : Int := 0
  deriving Repr, DecidableEq

/-- The `breakdown` sub-object of an attack-roll result. -/
structure RollBreakdown where
  base : Nat
  skill : Int
  item : Int
  buffs : Int
  debuffs : Int
  deriving Repr, DecidableEq

/-- Result of `calculateAttackRoll` / `calculateDefenseRoll`. -/
structure AttackRollResult where
  roll : Nat
  total : Int
  critical : Bool
  fumble : Bool
  breakdown : RollBreakdown
  deriving Repr, DecidableEq

/-- `CombatSystem.calculateAttackRoll(skillLevel, modifiers)`; the d20 face
(`this.rollD20()`) is the injected `roll` argument. -/
def calculateAttackRoll (skillLevel : Nat) (mods : Modifiers) (roll : Nat) :
    AttackRollResult :=
  let itemBonus := mods.item
  let buffs := mods.buffs
  let debuffs := mods.debuffs
  let skillPenalty : Int := if skillLevel = 0 then -5 else 0
  let total : Int := roll + skillLevel + itemBonus + buffs - debuffs + skillPenalty
  { roll := roll
    total := total
    critical := roll == 20
    fumble := roll == 1
    breakdown :=
      { base := roll
        skill := (skillLevel : Int) + skillPenalty
        item := itemBonus
        buffs := buffs
        debuffs := -debuffs } }

/-- `CombatSystem.calculateDefenseRoll(character, modifiers)`: takes the
highest of the `dodge`, `shield_use`, `parry` levels (absent skills are 0)
and delegates to `calculateAttackRoll`. -/
def calculateDefenseRoll (character : Combatant) (mods : Modifiers)
    (roll : Nat) : AttackRollResult :=
  let skills := character.skills
  let highestDefensiveSkill :=
    max (getSkill skills "dodge") (max (getSkill skills "shield_use") (getSkill skills "parry"))
  calculateAttackRoll highestDefensiveSkill mods roll

/-- `CombatSystem.calculateDamage(skillLevel, weaponDamage, modifiers)`:
`floor(skillLevel/5) + weaponDamage + ability`, doubled on a critical,
floored at 1. -/
def calculateDamage (skillLevel : Nat) (weaponDamage : Int) (ability : Int)
    (critical : Bool) : Int :=
  let baseDamage : Int := (skillLevel / 5 : Nat) + weaponDamage + ability
  let baseDamage := if critical then baseDamage * 2 else baseDamage
  max 1 baseDamage

/-- The fixed `weaponStats` table of `CombatSystem.getWeaponDamage`. -/
def weaponStats : List (String × Int) :=
  [("rusty_sword", 1), ("iron_sword", 3), ("steel_sword", 5),
   ("simple_bow", 2), ("flaming_sword", 5)]

/-- `CombatSystem.getWeaponDamage(weaponId)`: an undefined weapon id or an
id outside the table yields 0 (`weaponStats[weaponId] || 0`). -/
def getWeaponDamage (weaponId : Option String) : Int :=
  ((weaponId.bind (fun w => List.lookup w weaponStats)).getD 0)

/-- Result of `CombatSystem.resolveAttack`. -/
structure AttackResult where
  hit : Bool
  attackRoll : AttackRollResult
  defenseRoll : AttackRollResult
  damage : Int
  actualDamage : Int
  critical : Bool
  fumble : Bool
  skillUsed : String
  skillLevel : Nat
  deriving Repr, DecidableEq

/-- `CombatSystem.resolveAttack(attacker, defender, skillId,
attackModifiers, defenseModifiers)`.  The two d20 faces are injected.  The
function body contains no assignment to `defender` (the comment "Apply
damage to defender" only computes `actualDamage = min(damage,
defender.current_hp)`), so the returned defender equals the argument. -/
def resolveAttack (attacker defender : Combatant) (skillId : String)
    (attackModifiers defenseModifiers : Modifiers) (atkDie defDie : Nat) :
    AttackResult × Combatant :=
  let attackerSkill := getSkill attacker.skills skillId
  let weaponDamage := getWeaponDamage (attacker.equipment.bind Equipment.main_hand)
  let attackRoll := calculateAttackRoll attackerSkill attackModifiers atkDie
  let defenseRoll := calculateDefenseRoll defender defenseModifiers defDie
  let hit := decide (defenseRoll.total ≤ attackRoll.total)
  let damage :=
    if hit then
      calculateDamage attackerSkill weaponDamage attackModifiers.ability attackRoll.critical
    else 0
  let actualDamage := if hit then min damage defender.current_hp else 0
  ({ hit := hit
     attackRoll := attackRoll
     defenseRoll := defenseRoll
     damage := damage
     actualDamage := actualDamage
     critical := attackRoll.critical
     fumble := attackRoll.fumble
     skillUsed := skillId
     skillLevel := attackerSkill },
   defender)

/-- `CombatSystem.calculateTotalLevel(skills)`: sum of all skill levels. -/
def calculateTotalLevel (skills : List (String × Nat)) : Nat :=
  (skills.map Prod.snd).sum

/-- `CombatSystem.calculateMaxHP(totalLevel) = 20 + floor(totalLevel/10)`. -/
def calculateMaxHP (totalLevel : Nat) : Int :=
  20 + (totalLevel / 10 : Nat)

/-- `CombatSystem.calculateMaxEnergy(totalLevel) = 10 + floor(totalLevel/20)`. -/
def calculateMaxEnergy (totalLevel : Nat) : Int :=
  10 + (totalLevel / 20 : Nat)

/-- Result of `CombatSystem.applyDamage`. -/
structure DamageResult where
  newHP : Int
  wasKnockedOut : Bool
  died : Bool
  deriving Repr, DecidableEq

/-- `CombatSystem.applyDamage(target, damage)`: clamps the new hp at 0,
stores it, and on reaching 0 moves `status` from `active` to `knocked_out`,
and from anything else to `dead`. -/
def applyDamage (target : Combatant) (damage : Int) :
    Combatant × DamageResult :=
  let newHP := max 0 (target.current_hp - damage)
  let wasKnockedOut := decide (0 < target.current_hp) && decide (newHP = 0)
  let died := decide (newHP = 0)
  let newStatus :=
    if died then (if target.status = "active" then "knocked_out" else "dead")
    else target.status
  ({ target with current_hp := newHP, status := newStatus },
   { newHP := newHP, wasKnockedOut := wasKnockedOut, died := died })

/-- Result of `CombatSystem.applyHealing`. -/
structure HealResult where
  newHP : Int
  actualHealing : Int
  deriving Repr, DecidableEq

/-- `CombatSystem.applyHealing(target, healing)`: clamps the new hp at the
max hp recomputed from the skill totals; `status` is never written. -/
def applyHealing (target : Combatant) (healing : Int) :
    Combatant × HealResult :=
  let maxHP := calculateMaxHP (calculateTotalLevel target.skills)
  let newHP := min maxHP (target.current_hp + healing)
  let actualHealing := newHP - target.current_hp
  ({ target with current_hp := newHP },
   { newHP := newHP, actualHealing := actualHealing })

/-- The progression chance (in percent) of
`CombatSystem.processSkillProgression`: `100 / (currentLevel + 10)`,
a real-number division in JS, embedded in `ℚ`. -/
def progressChance (currentLevel : Nat) : ℚ :=
  100 / ((currentLevel : ℚ) + 10)

/-- Result of `CombatSystem.processSkillProgression`. -/
structure ProgressResult where
  leveledUp : Bool
  newLevel : Nat
  oldLevel : Nat
  deriving Repr, DecidableEq

/-- `CombatSystem.processSkillProgression(character, skillId)`: the draw
`Math.random() * 100` is the injected `draw` argument; a draw below the
progression chance raises the level by 1, capped at 100, and writes it back
into the skill map. -/
def processSkillProgression (character : Combatant) (skillId : String)
    (draw : ℚ) : Combatant × ProgressResult :=
  let currentLevel := getSkill character.skills skillId
  if draw < progressChance currentLevel then
    let newLevel := min (currentLevel + 1) 100
    ({ character with skills := setSkill character.skills skillId newLevel },
     { leveledUp := true, newLevel := newLevel, oldLevel := currentLevel })
  else
    (character,
     { leveledUp := false, newLevel := currentLevel, oldLevel := currentLevel })

end CombatSystem

namespace GameTick

/-- A game instance record (`game_instances` table): `characters` holds the
participating character ids. -/
structure GameInstance where
  instance_id : Nat
  current_tick : Nat
  game_state : String
  characters : List Nat
  current_room_index : Nat := 0
  dungeon_id : String := ""
  last_activity : String := ""
  deriving Repr, DecidableEq

/-- The nested `skillProgress` object of attack / skill-check results. -/
structure SkillProgress where
  leveledUp : Bool := false
  newLevel : Nat := 0
  oldLevel : Nat := 0
  deriving Repr, DecidableEq

/-- One command's resolution result, the union of the result objects built
by the `game-tick.js` handlers; fields a branch does not set keep their
defaults. -/
structure ActionResult where
  type : String := ""
  success : Bool := false
  character : String := ""
  character_id : Nat := 0
  target : String := ""
  skillUsed : String := ""
  roll : Nat := 0
  total : Int := 0
  defenseRoll : Int := 0
  damage : Int := 0
  critical : Bool := false
  skillId : String := ""
  dc : Nat := 0
  skillProgress : SkillProgress := {}
  item : String := ""
  healing : Int := 0
  narration : String := ""
  command : String := ""
  message : String := ""
  error : String := ""
  deriving Repr, DecidableEq

/-- A submitted command (`commands` table). -/
structure Command where
  command_id : Nat
  instance_id : Nat
  character_id : Nat
  tick_number : Nat
  raw_input : String
  result : Option ActionResult := none
  deriving Repr, DecidableEq

/-- Modelled from the spec: the record store reached through the storage
collaborator (§6) — the `game_instances`, `characters` and `commands`
tables.  In `game-tick.js` the storage helpers are placeholders
("Implementation would call airtable-proxy"), so the store is embedded as
explicit state threaded through the scheduler. -/
structure Store where
  instances : List GameInstance
  characters : List Combatant
  commands : List Command
  deriving Repr, DecidableEq

/-- Modelled from the spec: storage `read` of one game instance by id
(`getGameInstance`). -/
def getGameInstance (s : Store) (instanceId : Nat) : Option GameInstance :=
  s.instances.find? (fun g => g.instance_id == instanceId)

/-- Modelled from the spec: storage `read` of the commands submitted for
one instance and tick (`getTickCommands`). -/
def getTickCommands (s : Store) (instanceId tickNumber : Nat) : List Command :=
  s.commands.filter (fun c => c.instance_id == instanceId && c.tick_number == tickNumber)

/-- Modelled from the spec: storage `read` of one character by id
(`getCharacter`). -/
def getCharacter (s : Store) (characterId : Nat) : Option Combatant :=
  s.characters.find? (fun c => c.character_id == characterId)

/-- The partial field sets passed to `updateCharacter` by the handlers
(skill map, hp, inventory, position); `none` = field not written. -/
structure CharacterFields where
  skills : Option (List (String × Nat)) := none
  current_hp : Option Int := none
  inventory : Option (List String) := none
  x_position : Option Int := none
  y_position : Option Int := none
  deriving Repr, DecidableEq

/-- Applying a partial field update to a character record. -/
def applyCharacterFields (c : Combatant) (f : CharacterFields) : Combatant :=
  { c with
    skills := f.skills.getD c.skills
    current_hp := f.current_hp.getD c.current_hp
    inventory := f.inventory.getD c.inventory
    x_position := f.x_position.getD c.x_position
    y_position := f.y_position.getD c.y_position }

/-- Modelled from the spec: storage `update` of a character record
(`updateCharacter`). -/
def updateCharacter (s : Store) (characterId : Nat) (f : CharacterFields) :
    Store :=
  { s with
    characters := s.characters.map
      (fun c => if c.character_id == characterId then applyCharacterFields c f else c) }

/-- Modelled from the spec: storage `update` writing a command's result
(`updateCommand`). -/
def updateCommand (s : Store) (commandId : Nat) (r : ActionResult) : Store :=
  { s with
    commands := s.commands.map
      (fun c => if c.command_id == commandId then { c with result := some r } else c) }

/-- Modelled from the spec: storage `update` of the game instance
(`updateGameInstance` is called with `{current_tick, last_activity}`).  An
unconditional write: the §6 contract has only plain
create / read / update / delete, no compare-and-set. -/
def updateGameInstance (s : Store) (instanceId : Nat) (newTick : Nat)
    (newActivity : String) : Store :=
  { s with
    instances := s.instances.map
      (fun g =>
        if g.instance_id == instanceId then
          { g with current_tick := newTick, last_activity := newActivity }
        else g) }

/-- The injected random source: the stream of `Math.random()` draws, each
in `[0,1)`; an exhausted stream draws 0. -/
def nextRand : List ℚ → ℚ × List ℚ
  | [] => (0, [])
  | r :: rest => (r, rest)

/-- `rollD20()` in `game-tick.js`: `Math.floor(Math.random() * 20) + 1`. -/
def rollD20 (rng : List ℚ) : Nat × List ℚ :=
  let (r, rng') := nextRand rng
  ((⌊r * 20⌋).toNat + 1, rng')

/-- `formatSkillName(skillId)`: split on underscores, capitalize each word,
join with spaces. -/
def formatSkillName (skillId : String) : String :=
  String.intercalate " "
    ((skillId.splitOn "_").map (fun word => (word.take 1).toUpper ++ word.drop 1))

/-- A parsed intent, the shape returned by `parseCommandFallback`. -/
structure ParsedIntent where
  intent : String
  target : Option String := none
  skill_suggested : Option String := none
  confidence : ℚ := 0
  deriving Repr, DecidableEq

/-- `parseCommandFallback(input)`: lowercase, trim, split on whitespace,
then keyword matching per intent, with the fixed MVP defaults. -/
def parseCommandFallback (input : String) : ParsedIntent :=
  let lowercaseInput := input.toLower.trim
  let words := (lowercaseInput.split Char.isWhitespace).filter (fun w => w ≠ "")
  if words.any (fun w => ["attack", "hit", "strike", "fight", "kill"].contains w) then
    { intent := "attack", target := some "goblin",
      skill_suggested := some "swordsmanship", confidence := 8/10 }
  else if words.any (fun w => ["move", "go", "walk", "run", "step"].contains w) then
    { intent := "move", target := none,
      skill_suggested := some "navigation", confidence := 7/10 }
  else if words.any (fun w => ["defend", "block", "guard", "shield", "protect"].contains w) then
    { intent := "use_skill", target := none,
      skill_suggested := some "shield_use", confidence := 8/10 }
  else if words.any (fun w => ["use", "drink", "consume", "apply"].contains w) then
    { intent := "use_item", target := some "health_potion",
      skill_suggested := none, confidence := 7/10 }
  else
    { intent := "unknown", target := none, skill_suggested := none,
      confidence := 1/10 }

/-- The fixed MVP goblin enemy created locally by `processAttackCommand`;
it lives only inside the handler call and is never read from or written to
the store. -/
def goblinEnemy : Combatant :=
  { character_name := "Goblin", current_hp := 10, max_hp := 10,
    skills := [("swordsmanship", 5), ("dodge", 3)] }

/-- `processAttackCommand(character, parsedIntent, gameInstance)` of
`game-tick.js`: inline d20 resolution against the local goblin, skill
progression with chance `100/(skillLevel+10)`, and — on a level-up only —
an `updateCharacter` call persisting the new skill map.  No damage is ever
applied to the goblin and no enemy record is written. -/
def processAttackCommand (character : Combatant) (parsedIntent : ParsedIntent)
    (s : Store) (rng : List ℚ) : ActionResult × Store × List ℚ :=
  let skillId := parsedIntent.skill_suggested.getD "swordsmanship"
  let skillLevel := getSkill character.skills skillId
  let atkDie := (rollD20 rng).1
  let rng1 := (rollD20 rng).2
  let defDie := (rollD20 rng1).1
  let rng2 := (rollD20 rng1).2
  let attackRoll : Int := atkDie + skillLevel
  let defenseRoll : Int := defDie + getSkill goblinEnemy.skills "dodge"
  let hit := decide (defenseRoll ≤ attackRoll)
  let damage : Int :=
    if hit then
      let base : Int := max 1 ((skillLevel / 5 : Nat) + 1)
      if atkDie == 20 then base * 2 else base
    else 0
  let r := (nextRand rng2).1
  let rng3 := (nextRand rng2).2
  let leveledUp := decide (r * 100 < CombatSystem.progressChance skillLevel)
  let character :=
    if leveledUp then
      { character with skills := setSkill character.skills skillId (min (skillLevel + 1) 100) }
    else character
  let s :=
    if leveledUp then updateCharacter s character.character_id { skills := some character.skills }
    else s
  ({ type := "attack"
     success := hit
     character := character.character_name
     character_id := 0
     target := goblinEnemy.character_name
     skillUsed := skillId
     roll := atkDie
     total := attackRoll
     defenseRoll := defenseRoll
     damage := damage
     critical := atkDie == 20
     skillProgress :=
       { leveledUp := leveledUp
         newLevel := getSkill character.skills skillId
         oldLevel := skillLevel }
     narration :=
       if hit then
         character.character_name ++ " strikes the goblin for " ++ toString damage ++ " damage!"
       else
         character.character_name ++ " swings at the goblin but misses!" },
   s, rng3)

/-- `processMoveCommand`: one random step per axis, clamped into
`[1,18] × [1,8]`, persisted with `updateCharacter`. -/
def processMoveCommand (character : Combatant) (_parsedIntent : ParsedIntent)
    (s : Store) (rng : List ℚ) : ActionResult × Store × List ℚ :=
  let r1 := (nextRand rng).1
  let rng1 := (nextRand rng).2
  let newX := max 1 (min 18 (character.x_position + (if (1 : ℚ)/2 < r1 then 1 else -1)))
  let r2 := (nextRand rng1).1
  let rng2 := (nextRand rng1).2
  let newY := max 1 (min 8 (character.y_position + (if (1 : ℚ)/2 < r2 then 1 else -1)))
  let s := updateCharacter s character.character_id
    { x_position := some newX, y_position := some newY }
  ({ type := "move"
     success := true
     character := character.character_name
     narration := character.character_name ++ " moves to a new position." },
   s, rng2)

/-- `processSkillCommand`: a standalone skill check against DC 16, then
skill progression, with the skill map persisted on a level-up. -/
def processSkillCommand (character : Combatant) (parsedIntent : ParsedIntent)
    (s : Store) (rng : List ℚ) : ActionResult × Store × List ℚ :=
  let skillId := parsedIntent.skill_suggested.getD "perception"
  let skillLevel := getSkill character.skills skillId
  let roll := (rollD20 rng).1
  let rng1 := (rollD20 rng).2
  let total : Int := roll + skillLevel
  let dc : Nat := 16
  let success := decide ((dc : Int) ≤ total)
  let r := (nextRand rng1).1
  let rng2 := (nextRand rng1).2
  let leveledUp := decide (r * 100 < CombatSystem.progressChance skillLevel)
  let character :=
    if leveledUp then
      { character with skills := setSkill character.skills skillId (min (skillLevel + 1) 100) }
    else character
  let s :=
    if leveledUp then updateCharacter s character.character_id { skills := some character.skills }
    else s
  ({ type := "skill_check"
     success := success
     character := character.character_name
     skillId := skillId
     roll := roll
     total := total
     dc := dc
     skillProgress :=
       { leveledUp := leveledUp
         newLevel := getSkill character.skills skillId
         oldLevel := skillLevel }
     narration :=
       if success then
         character.character_name ++ " successfully uses " ++ formatSkillName skillId ++ "!"
       else
         character.character_name ++ " attempts to use " ++ formatSkillName skillId ++ " but fails." },
   s, rng2)

/-- `processItemCommand`: a `health_potion` in the inventory heals 15
clamped at `max_hp` and every `health_potion` entry is filtered out of the
inventory, both persisted in one `updateCharacter` call; with no potion the
handler fails and performs no update. -/
def processItemCommand (character : Combatant) (_parsedIntent : ParsedIntent)
    (s : Store) (rng : List ℚ) : ActionResult × Store × List ℚ :=
  if character.inventory.contains "health_potion" then
    let healing : Int := 15
    let newHP := min character.max_hp (character.current_hp + healing)
    let actualHealing := newHP - character.current_hp
    let newInventory := character.inventory.filter (fun item => item ≠ "health_potion")
    let s := updateCharacter s character.character_id
      { current_hp := some newHP, inventory := some newInventory }
    ({ type := "item_use"
       success := true
       character := character.character_name
       item := "Health Potion"
       healing := actualHealing
       narration := character.character_name ++ " drinks a health potion and recovers "
         ++ toString actualHealing ++ " HP." },
     s, rng)
  else
    ({ type := "item_use"
       success := false
       character := character.character_name
       narration := character.character_name ++ " doesn\x27t have any usable items." },
     s, rng)

/-- `processInteractCommand`: always succeeds, no state change. -/
def processInteractCommand (character : Combatant) (_parsedIntent : ParsedIntent)
    (s : Store) (rng : List ℚ) : ActionResult × Store × List ℚ :=
  ({ type := "interact"
     success := true
     character := character.character_name
     narration := character.character_name ++ " examines the surroundings carefully." },
   s, rng)

/-- `processCommand(command, gameInstance)`: loads the character (throwing
`Character not found` when the read returns nothing — the embedding's
`Except.error`), parses the raw input with the fallback parser, dispatches
on the intent, and stamps the result with the character id. -/
def processCommand (command : Command) (_gameInstance : GameInstance)
    (s : Store) (rng : List ℚ) :
    Except String (ActionResult × Store × List ℚ) :=
  match getCharacter s command.character_id with
  | none => .error "Character not found"
  | some character =>
    let parsedIntent := parseCommandFallback command.raw_input
    let out :=
      match parsedIntent.intent with
      | "attack" => processAttackCommand character parsedIntent s rng
      | "move" => processMoveCommand character parsedIntent s rng
      | "use_skill" => processSkillCommand character parsedIntent s rng
      | "use_item" => processItemCommand character parsedIntent s rng
      | "interact" => processInteractCommand character parsedIntent s rng
      | _ =>
        ({ type := "unknown"
           success := false
           character := character.character_name
           command := command.raw_input
           message := "I don\x27t understand that command. Try \"attack\", \"move\", \"use item\", or \"defend\"." },
         s, rng)
    .ok ({ out.1 with character_id := character.character_id }, out.2.1, out.2.2)

/-- The failed result pushed by the per-command `catch` block of
`processGameTick`. -/
def catchResult (command : Command) (e : String) : ActionResult :=
  { character_id := command.character_id
    success := false
    narration := "Something went wrong processing your action."
    error := e }

/-- The per-command loop of `processGameTick`: resolve, record the result
on the command record, and downgrade an exception to a failed result for
that character without aborting the remaining commands. -/
def processCommandsLoop (commands : List Command)
    (gameInstance : GameInstance) (s : Store) (rng : List ℚ) :
    List ActionResult × Store × List ℚ :=
  match commands with
  | [] => ([], s, rng)
  | command :: rest =>
    match processCommand command gameInstance s rng with
    | .ok (result, s', rng') =>
      let s'' := updateCommand s' command.command_id result
      let tail := processCommandsLoop rest gameInstance s'' rng'
      (result :: tail.1, tail.2.1, tail.2.2)
    | .error e =>
      let tail := processCommandsLoop rest gameInstance s rng
      (catchResult command e :: tail.1, tail.2.1, tail.2.2)

/-- Room/dungeon verdict returned by `checkRoomCompletion`. -/
structure RoomStatus where
  completed : Bool
  advance : Bool
  reason : String
  deriving Repr, DecidableEq

/-- `checkRoomCompletion(gameInstance, results)` of `game-tick.js`: a
constant placeholder — it inspects neither the party's statuses nor the
room and always reports an ongoing, unadvanced room. -/
def checkRoomCompletion (_gameInstance : GameInstance)
    (_results : List ActionResult) : RoomStatus :=
  { completed := false, advance := false, reason := "Combat ongoing" }

/-- The value returned by `processGameTick`. -/
structure TickOutcome where
  success : Bool
  error : String := ""
  submitted : Nat := 0
  expected : Nat := 0
  instance_id : Nat := 0
  tick : Nat := 0
  results : List ActionResult := []
  next_tick : Nat := 0
  room_status : RoomStatus := { completed := false, advance := false, reason := "" }
  deriving Repr, DecidableEq

/-- The body of `processGameTick` after the initial instance read: the
instance snapshot `gameInstance` is the value observed by this invocation,
while all later storage operations run against the current store.
Splitting the read out makes the §5 interleaving of two invocations (both
reading before either commits) directly expressible. -/
def processGameTickWith (gameInstance : GameInstance) (instanceId : Nat)
    (force : Bool) (now : String) (s : Store) (rng : List ℚ) :
    TickOutcome × Store × List ℚ :=
  if gameInstance.game_state ≠ "active" then
    ({ success := false, error := "Game is not active" }, s, rng)
  else
    let currentTick := gameInstance.current_tick
    let commands := getTickCommands s instanceId currentTick
    let expectedPlayers := gameInstance.characters.length
    if commands.length < expectedPlayers ∧ force = false then
      ({ success := false
         error := "Waiting for more players"
         submitted := commands.length
         expected := expectedPlayers }, s, rng)
    else
      let out := processCommandsLoop commands gameInstance s rng
      let nextTick := currentTick + 1
      let s'' := updateGameInstance out.2.1 instanceId nextTick now
      let roomStatus := checkRoomCompletion gameInstance out.1
      ({ success := true
         instance_id := instanceId
         tick := currentTick
         results := out.1
         next_tick := nextTick
         room_status := roomStatus }, s'', out.2.2)

/-- `processGameTick(instanceId, force)`: load the instance and run the
tick body; `now` is the injected wall-clock value for `last_activity`. -/
def processGameTick (instanceId : Nat) (force : Bool) (now : String)
    (s : Store) (rng : List ℚ) : TickOutcome × Store × List ℚ :=
  match getGameInstance s instanceId with
  | none => ({ success := false, error := "Game instance not found" }, s, rng)
  | some gameInstance => processGameTickWith gameInstance instanceId force now s rng

end GameTick

namespace GameEngine

/-- A dungeon record: an ordered room sequence. -/
structure Dungeon where
  dungeon_id : String
  room_sequence : List String
  deriving Repr, DecidableEq

/-- `GameEngine.advanceToNextRoom` of `game-engine.js`, the only room
advance in the repository: past the last room it sets `game_state` to
`completed`, otherwise it bumps `current_room_index`.  It never writes
`failed`. -/
def advanceToNextRoom (gameInstance : GameTick.GameInstance) (dungeon : Dungeon) :
    GameTick.GameInstance :=
  let nextRoomIndex := gameInstance.current_room_index + 1
  if dungeon.room_sequence.length ≤ nextRoomIndex then
    { gameInstance with game_state := "completed" }
  else
    { gameInstance with current_room_index := nextRoomIndex }

/-- `GameEngine.areAllEnemiesDefeated(roomState)`: every enemy at hp ≤ 0. -/
def areAllEnemiesDefeated (enemies : List Combatant) : Bool :=
  enemies.all (fun enemy => enemy.current_hp ≤ 0)

end GameEngine

namespace GameTick

/-- Fixture: an active single-character instance at tick 1. -/
def raceInstance : GameInstance :=
  { instance_id := 1, current_tick := 1, game_state := "active", characters := [7] }

/-- Fixture: the mock character record of `game-tick.js`. -/
def heroCharacter : Combatant :=
  { character_id := 7, character_name := "Hero", current_hp := 20, max_hp := 20,
    skills := [("swordsmanship", 5), ("dodge", 3)], inventory := ["health_potion"],
    x_position := 10, y_position := 5 }

/-- Fixture: one pending command for tick 1. -/
def lookCommand : Command :=
  { command_id := 100, instance_id := 1, character_id := 7, tick_number := 1,
    raw_input := "look" }

/-- Fixture: store for the two-concurrent-ticks schedule. -/
def raceStore : Store :=
  { instances := [raceInstance], characters := [heroCharacter], commands := [] }

/-- Fixture: a character whose status is `dead` with 0 hp. -/
def deadCharacter : Combatant :=
  { character_id := 7, character_name := "Hero", current_hp := 0, max_hp := 20,
    status := "dead" }

/-- Fixture: store in which every participating character is dead. -/
def deadStore : Store :=
  { instances := [raceInstance], characters := [deadCharacter], commands := [] }

/-- Fixture: store holding only the mock character. -/
def attackStore : Store :=
  { instances := [raceInstance], characters := [heroCharacter], commands := [] }

/-- Fixture: a character at 5 of 20 hp holding one health potion. -/
def potionCharacter : Combatant :=
  { character_id := 7, character_name := "Hero", current_hp := 5, max_hp := 20,
    inventory := ["health_potion"] }

/-- Fixture: store holding the wounded potion carrier. -/
def potionStore : Store :=
  { instances := [raceInstance], characters := [potionCharacter], commands := [] }

/-- Fixture: an active two-character instance at tick 1. -/
def duoInstance : GameInstance :=
  { instance_id := 1, current_tick := 1, game_state := "active", characters := [7, 9] }

/-- Fixture: store with two expected characters but only one submitted
command for tick 1. -/
def waitingStore : Store :=
  { instances := [duoInstance], characters := [heroCharacter], commands := [lookCommand] }

/-- Fixture: a command for character 9, who has no character record. -/
def ghostCommand : Command :=
  { command_id := 101, instance_id := 1, character_id := 9, tick_number := 1,
    raw_input := "attack" }

/-- Fixture: store with both tick-1 commands submitted, one of them for the
missing character 9. -/
def isolationStore : Store :=
  { instances := [duoInstance], characters := [heroCharacter],
    commands := [lookCommand, ghostCommand] }

end GameTick

open CombatSystem

/-- Claim C5: for every attacker, defender and skill id, `resolveAttack`
reports a hit exactly when the attack-roll total is at least the
defense-roll total; on a hit `actualDamage = min(damage, defender.current_hp)`,
hence `actualDamage` never exceeds `defender.current_hp`; and `resolveAttack`
returns the defender unmutated (hp and status unchanged). -/
theorem resolveAttack_spec (attacker defender : Combatant) (skillId : String)
    (am dm : Modifiers) (atkDie defDie : Nat)
    (hhp : 0 ≤ defender.current_hp) :
    ((resolveAttack attacker defender skillId am dm atkDie defDie).1.hit = true ↔
      (resolveAttack attacker defender skillId am dm atkDie defDie).1.defenseRoll.total ≤
        (resolveAttack attacker defender skillId am dm atkDie defDie).1.attackRoll.total) ∧
    ((resolveAttack attacker defender skillId am dm atkDie defDie).1.hit = true →
      (resolveAttack attacker defender skillId am dm atkDie defDie).1.actualDamage =
        min (resolveAttack attacker defender skillId am dm atkDie defDie).1.damage
          defender.current_hp) ∧
    (resolveAttack attacker defender skillId am dm atkDie defDie).1.actualDamage ≤
      defender.current_hp ∧
    (resolveAttack attacker defender skillId am dm atkDie defDie).2 = defender := by
  unfold resolveAttack
  by_cases h : (calculateDefenseRoll defender dm defDie).total ≤
      (calculateAttackRoll (getSkill attacker.skills skillId) am atkDie).total
  · simp [h, min_le_right]
  · simp [h, hhp]

/-- Claim C5 witness: concrete instantiation (defender with 10 hp, dice 15
and 4). -/
theorem resolveAttack_spec_witness :
    (0 : Int) ≤ ({ current_hp := 10 : Combatant }).current_hp ∧
    (((resolveAttack { skills := [("swordsmanship", 5)] } { current_hp := 10 }
        "swordsmanship" {} {} 15 4).1.hit = true ↔
      (resolveAttack { skills := [("swordsmanship", 5)] } { current_hp := 10 }
        "swordsmanship" {} {} 15 4).1.defenseRoll.total ≤
        (resolveAttack { skills := [("swordsmanship", 5)] } { current_hp := 10 }
          "swordsmanship" {} {} 15 4).1.attackRoll.total) ∧
    ((resolveAttack { skills := [("swordsmanship", 5)] } { current_hp := 10 }
        "swordsmanship" {} {} 15 4).1.hit = true →
      (resolveAttack { skills := [("swordsmanship", 5)] } { current_hp := 10 }
        "swordsmanship" {} {} 15 4).1.actualDamage =
        min (resolveAttack { skills := [("swordsmanship", 5)] } { current_hp := 10 }
          "swordsmanship" {} {} 15 4).1.damage
          ({ current_hp := 10 : Combatant }).current_hp) ∧
    (resolveAttack { skills := [("swordsmanship", 5)] } { current_hp := 10 }
      "swordsmanship" {} {} 15 4).1.actualDamage ≤
      ({ current_hp := 10 : Combatant }).current_hp ∧
    (resolveAttack { skills := [("swordsmanship", 5)] } { current_hp := 10 }
      "swordsmanship" {} {} 15 4).2 = { current_hp := 10 }) :=
  ⟨by decide,
   resolveAttack_spec { skills := [("swordsmanship", 5)] } { current_hp := 10 }
     "swordsmanship" {} {} 15 4 (by decide)⟩

/-- Claim C7: for every target and non-negative damage and healing amount
(with hp inside `[0, max]` beforehand), `applyDamage` and `applyHealing`
keep `current_hp` clamped in `[0, max]`; a damage application that brings
hp to 0 moves `status` from `active` to `knocked_out` the first time and
from `knocked_out` to `dead` the second time, never backward; and
`applyHealing` only raises `current_hp` and never changes `status`. -/
theorem applyDamage_applyHealing_spec (target : Combatant)
    (amount healing : Int) (ham : 0 ≤ amount) (hhe : 0 ≤ healing)
    (hhp0 : 0 ≤ target.current_hp)
    (hhpM : target.current_hp ≤ calculateMaxHP (calculateTotalLevel target.skills)) :
    0 ≤ (applyDamage target amount).1.current_hp ∧
    (applyDamage target amount).1.current_hp ≤ target.current_hp ∧
    (target.status = "active" →
      (applyDamage target amount).1.status =
        if (applyDamage target amount).1.current_hp = 0 then "knocked_out"
        else "active") ∧
    (target.status = "knocked_out" →
      (applyDamage target amount).1.status =
        if (applyDamage target amount).1.current_hp = 0 then "dead"
        else "knocked_out") ∧
    (target.status = "dead" → (applyDamage target amount).1.status = "dead") ∧
    target.current_hp ≤ (applyHealing target healing).1.current_hp ∧
    (applyHealing target healing).1.current_hp ≤
      calculateMaxHP (calculateTotalLevel target.skills) ∧
    (applyHealing target healing).1.status = target.status := by
  unfold applyDamage applyHealing
  refine ⟨by simp [le_max_left], by simp; omega, ?_, ?_, ?_, by simp; omega,
    by simp [min_le_left], by simp⟩
  · intro hst
    by_cases h0 : max 0 (target.current_hp - amount) = 0 <;> simp [hst, h0]
  · intro hst
    by_cases h0 : max 0 (target.current_hp - amount) = 0 <;> simp [hst, h0]
  · intro hst
    by_cases h0 : max 0 (target.current_hp - amount) = 0 <;> simp [hst, h0]

/-- Claim C7 witness: concrete instantiation (hp 5, damage 2, healing 3). -/
theorem applyDamage_applyHealing_spec_witness :
    0 ≤ (applyDamage { skills := [("swordsmanship", 5)], current_hp := 5 } 2).1.current_hp ∧
    (applyDamage { skills := [("swordsmanship", 5)], current_hp := 5 } 2).1.current_hp ≤
      ({ skills := [("swordsmanship", 5)], current_hp := 5 : Combatant }).current_hp ∧
    (({ skills := [("swordsmanship", 5)], current_hp := 5 : Combatant }).status = "active" →
      (applyDamage { skills := [("swordsmanship", 5)], current_hp := 5 } 2).1.status =
        if (applyDamage { skills := [("swordsmanship", 5)], current_hp := 5 } 2).1.current_hp = 0
        then "knocked_out" else "active") ∧
    (({ skills := [("swordsmanship", 5)], current_hp := 5 : Combatant }).status = "knocked_out" →
      (applyDamage { skills := [("swordsmanship", 5)], current_hp := 5 } 2).1.status =
        if (applyDamage { skills := [("swordsmanship", 5)], current_hp := 5 } 2).1.current_hp = 0
        then "dead" else "knocked_out") ∧
    (({ skills := [("swordsmanship", 5)], current_hp := 5 : Combatant }).status = "dead" →
      (applyDamage { skills := [("swordsmanship", 5)], current_hp := 5 } 2).1.status = "dead") ∧
    ({ skills := [("swordsmanship", 5)], current_hp := 5 : Combatant }).current_hp ≤
      (applyHealing { skills := [("swordsmanship", 5)], current_hp := 5 } 3).1.current_hp ∧
    (applyHealing { skills := [("swordsmanship", 5)], current_hp := 5 } 3).1.current_hp ≤
      calculateMaxHP (calculateTotalLevel ({ skills := [("swordsmanship", 5)], current_hp := 5 : Combatant }).skills) ∧
    (applyHealing { skills := [("swordsmanship", 5)], current_hp := 5 } 3).1.status =
      ({ skills := [("swordsmanship", 5)], current_hp := 5 : Combatant }).status :=
  applyDamage_applyHealing_spec { skills := [("swordsmanship", 5)], current_hp := 5 }
    2 3 (by decide) (by decide) (by decide) (by decide)

/-- Reading back a skill level just written into the skill map. -/
theorem getSkill_setSkill (s : List (String × Nat)) (skillId : String)
    (lvl : Nat) : getSkill (setSkill s skillId lvl) skillId = lvl := by
  induction s with
  | nil => simp [setSkill, getSkill, List.lookup]
  | cons p rest ih =>
    obtain ⟨k, v⟩ := p
    by_cases h : k = skillId
    · simp [setSkill, getSkill, List.lookup, h]
    · have hbeq : (skillId == k) = false := by
        simp [Ne.symm h]
      simpa [setSkill, getSkill, List.lookup, h, hbeq] using ih

/-- Claim C8: for skill levels in `[0,100]`, the progression chance
`100/(L+10)` is strictly decreasing in `L` and always lies in `(0,100]`;
on a successful draw `processSkillProgression` raises the level by exactly
1, capped at 100, writes it back into the skill map, and the level never
decreases. -/
theorem processSkillProgression_spec (L1 L2 L : Nat) (character : Combatant)
    (skillId : String) (draw : ℚ) (h12 : L1 < L2) (h2 : L2 ≤ 100)
    (hL : L ≤ 100) (hcur : getSkill character.skills skillId ≤ 100) :
    progressChance L2 < progressChance L1 ∧
    0 < progressChance L ∧ progressChance L ≤ 100 ∧
    (draw < progressChance (getSkill character.skills skillId) →
      (processSkillProgression character skillId draw).2.leveledUp = true ∧
      (processSkillProgression character skillId draw).2.newLevel =
        min (getSkill character.skills skillId + 1) 100 ∧
      (getSkill character.skills skillId < 100 →
        (processSkillProgression character skillId draw).2.newLevel =
          getSkill character.skills skillId + 1) ∧
      getSkill (processSkillProgression character skillId draw).1.skills skillId =
        (processSkillProgression character skillId draw).2.newLevel) ∧
    (processSkillProgression character skillId draw).2.newLevel ≤ 100 ∧
    getSkill character.skills skillId ≤
      (processSkillProgression character skillId draw).2.newLevel := by
  have hposL : ∀ n : Nat, (0 : ℚ) < (n : ℚ) + 10 := by
    intro n
    have := (Nat.cast_nonneg n : (0 : ℚ) ≤ n)
    linarith
  refine ⟨?_, ?_, ?_, ?_, ?_, ?_⟩
  · unfold progressChance
    refine div_lt_div_of_pos_left (by norm_num) (hposL L1) ?_
    have : (L1 : ℚ) < L2 := by exact_mod_cast h12
    linarith
  · exact div_pos (by norm_num) (hposL L)
  · unfold progressChance
    refine div_le_self (by norm_num) ?_
    have := (Nat.cast_nonneg L : (0 : ℚ) ≤ L)
    linarith
  · intro hdraw
    unfold processSkillProgression
    simp [hdraw, getSkill_setSkill]
    omega
  · unfold processSkillProgression
    by_cases hdraw : draw < progressChance (getSkill character.skills skillId) <;>
      simp [hdraw] <;> omega
  · unfold processSkillProgression
    by_cases hdraw : draw < progressChance (getSkill character.skills skillId) <;>
      simp [hdraw] <;> omega

/-- Claim C8 witness: concrete instantiation (levels 0, 1, 5; a character
with swordsmanship 5; draw 0). -/
theorem processSkillProgression_spec_witness :
    progressChance 1 < progressChance 0 ∧
    0 < progressChance 5 ∧ progressChance 5 ≤ 100 ∧
    ((0 : ℚ) < progressChance
        (getSkill ({ skills := [("swordsmanship", 5)] : Combatant }).skills "swordsmanship") →
      (processSkillProgression { skills := [("swordsmanship", 5)] } "swordsmanship" 0).2.leveledUp = true ∧
      (processSkillProgression { skills := [("swordsmanship", 5)] } "swordsmanship" 0).2.newLevel =
        min (getSkill ({ skills := [("swordsmanship", 5)] : Combatant }).skills "swordsmanship" + 1) 100 ∧
      (getSkill ({ skills := [("swordsmanship", 5)] : Combatant }).skills "swordsmanship" < 100 →
        (processSkillProgression { skills := [("swordsmanship", 5)] } "swordsmanship" 0).2.newLevel =
          getSkill ({ skills := [("swordsmanship", 5)] : Combatant }).skills "swordsmanship" + 1) ∧
      getSkill (processSkillProgression { skills := [("swordsmanship", 5)] } "swordsmanship" 0).1.skills
          "swordsmanship" =
        (processSkillProgression { skills := [("swordsmanship", 5)] } "swordsmanship" 0).2.newLevel) ∧
    (processSkillProgression { skills := [("swordsmanship", 5)] } "swordsmanship" 0).2.newLevel ≤ 100 ∧
    getSkill ({ skills := [("swordsmanship", 5)] : Combatant }).skills "swordsmanship" ≤
      (processSkillProgression { skills := [("swordsmanship", 5)] } "swordsmanship" 0).2.newLevel := by
  have h := processSkillProgression_spec 0 1 5 { skills := [("swordsmanship", 5)] }
    "swordsmanship" 0 (by decide) (by decide) (by decide) (by decide)
  exact h

/-- Claim C10: `resolveAttack` is total on partially populated inputs: a
skill id absent from the attacker's skill map is treated as level 0, a
missing equipment field or an unknown weapon id contributes weapon damage
0, and missing defensive skills are treated as level 0, so the function
still produces the full breakdown (equal to the one for explicit zero
levels and no weapon). -/
theorem resolveAttack_total_defaults (attacker defender : Combatant)
    (skillId w : String) (am dm : Modifiers) (atkDie defDie : Nat)
    (hA : List.lookup skillId attacker.skills = none)
    (hE : attacker.equipment = none)
    (hw : List.lookup w weaponStats = none)
    (hd : List.lookup "dodge" defender.skills = none)
    (hs : List.lookup "shield_use" defender.skills = none)
    (hp : List.lookup "parry" defender.skills = none) :
    getWeaponDamage none = 0 ∧
    getWeaponDamage (some w) = 0 ∧
    (resolveAttack attacker defender skillId am dm atkDie defDie).1.skillLevel = 0 ∧
    (resolveAttack attacker defender skillId am dm atkDie defDie).1.attackRoll =
      calculateAttackRoll 0 am atkDie ∧
    (resolveAttack attacker defender skillId am dm atkDie defDie).1.defenseRoll =
      calculateAttackRoll 0 dm defDie ∧
    (resolveAttack attacker defender skillId am dm atkDie defDie).1.damage =
      (if (resolveAttack attacker defender skillId am dm atkDie defDie).1.hit
       then calculateDamage 0 0 am.ability (atkDie == 20) else 0) := by
  have hskill : getSkill attacker.skills skillId = 0 := by
    simp [getSkill, hA]
  have hdef : getSkill defender.skills "dodge" = 0 ∧
      getSkill defender.skills "shield_use" = 0 ∧
      getSkill defender.skills "parry" = 0 := by
    simp [getSkill, hd, hs, hp]
  refine ⟨rfl, by simp [getWeaponDamage, hw], ?_, ?_, ?_, ?_⟩
  · simp [resolveAttack, hskill]
  · simp [resolveAttack, hskill]
  · simp [resolveAttack, calculateDefenseRoll, hdef.1, hdef.2.1, hdef.2.2]
  · simp [resolveAttack, hskill, hE, getWeaponDamage, calculateAttackRoll]

/-- Claim C10 witness: concrete instantiation (empty skill maps, no
equipment, unknown weapon id, dice 12 and 7). -/
theorem resolveAttack_total_defaults_witness :
    getWeaponDamage none = 0 ∧
    getWeaponDamage (some "broom") = 0 ∧
    (resolveAttack {} {} "swordsmanship" {} {} 12 7).1.skillLevel = 0 ∧
    (resolveAttack {} {} "swordsmanship" {} {} 12 7).1.attackRoll =
      calculateAttackRoll 0 {} 12 ∧
    (resolveAttack {} {} "swordsmanship" {} {} 12 7).1.defenseRoll =
      calculateAttackRoll 0 {} 7 ∧
    (resolveAttack {} {} "swordsmanship" {} {} 12 7).1.damage =
      (if (resolveAttack {} {} "swordsmanship" {} {} 12 7).1.hit
       then calculateDamage 0 0 ({} : Modifiers).ability (12 == 20) else 0) :=
  resolveAttack_total_defaults {} {} "swordsmanship" "broom" {} {} 12 7
    rfl rfl (by decide) rfl rfl rfl


open GameTick

/-- Claim C2: for every active game instance, `processTick` with
`force = false` and fewer submitted commands than participating characters
returns the waiting outcome carrying the submitted and expected counts and
mutates nothing: the whole store (current_tick, every character record,
all other instance state) is returned unchanged. -/
theorem processGameTick_waiting (instanceId : Nat) (now : String)
    (s : Store) (rng : List ℚ) (gi : GameInstance)
    (hgi : getGameInstance s instanceId = some gi)
    (hactive : gi.game_state = "active")
    (hlt : (getTickCommands s instanceId gi.current_tick).length <
      gi.characters.length) :
    processGameTick instanceId false now s rng =
      ({ success := false
         error := "Waiting for more players"
         submitted := (getTickCommands s instanceId gi.current_tick).length
         expected := gi.characters.length }, s, rng) := by
  unfold processGameTick processGameTickWith
  rw [hgi]
  simp [hactive, hlt]

/-- Claim C2 witness: two expected characters, one submitted command. -/
theorem processGameTick_waiting_witness :
    processGameTick 1 false "t1" waitingStore [] =
      ({ success := false
         error := "Waiting for more players"
         submitted := (getTickCommands waitingStore 1 duoInstance.current_tick).length
         expected := duoInstance.characters.length }, waitingStore, []) :=
  processGameTick_waiting 1 "t1" waitingStore [] duoInstance (by decide) rfl
    (by decide)

/-- `updateCharacter` never changes which character ids exist. -/
theorem charIds_updateCharacter (s : Store) (cid : Nat) (f : CharacterFields) :
    (updateCharacter s cid f).characters.map Combatant.character_id =
      s.characters.map Combatant.character_id := by
  unfold updateCharacter
  simp only [List.map_map]
  refine List.map_congr_left ?_
  intro c _
  simp only [applyCharacterFields, Function.comp_apply]
  split <;> rfl

/-- `updateCommand` leaves character and instance tables untouched. -/
theorem updateCommand_characters (s : Store) (cid : Nat) (r : ActionResult) :
    (updateCommand s cid r).characters = s.characters ∧
    (updateCommand s cid r).instances = s.instances :=
  ⟨rfl, rfl⟩

/-- A character id is missing from the store exactly when no record has it. -/
theorem getCharacter_eq_none_iff (s : Store) (cid : Nat) :
    getCharacter s cid = none ↔
      cid ∉ s.characters.map Combatant.character_id := by
  unfold getCharacter
  rw [List.find?_eq_none]
  constructor
  · intro h hx
    rw [List.mem_map] at hx
    obtain ⟨c, hc, hcid⟩ := hx
    exact h c hc (by simp [hcid])
  · intro h c hc
    intro hb
    rw [beq_iff_eq] at hb
    exact h (List.mem_map.mpr ⟨c, hc, hb⟩)

/-- The attack handler touches at most the acting character's record. -/
theorem processAttackCommand_store (ch : Combatant) (pi : ParsedIntent)
    (s : Store) (rng : List ℚ) :
    (processAttackCommand ch pi s rng).2.1.characters.map Combatant.character_id =
      s.characters.map Combatant.character_id ∧
    (processAttackCommand ch pi s rng).2.1.instances = s.instances := by
  unfold processAttackCommand
  dsimp only
  constructor
  · split
    · exact charIds_updateCharacter _ _ _
    · rfl
  · split <;> rfl

/-- The move handler touches at most the acting character's record. -/
theorem processMoveCommand_store (ch : Combatant) (pi : ParsedIntent)
    (s : Store) (rng : List ℚ) :
    (processMoveCommand ch pi s rng).2.1.characters.map Combatant.character_id =
      s.characters.map Combatant.character_id ∧
    (processMoveCommand ch pi s rng).2.1.instances = s.instances := by
  unfold processMoveCommand
  exact ⟨charIds_updateCharacter _ _ _, rfl⟩

/-- The skill handler touches at most the acting character's record. -/
theorem processSkillCommand_store (ch : Combatant) (pi : ParsedIntent)
    (s : Store) (rng : List ℚ) :
    (processSkillCommand ch pi s rng).2.1.characters.map Combatant.character_id =
      s.characters.map Combatant.character_id ∧
    (processSkillCommand ch pi s rng).2.1.instances = s.instances := by
  unfold processSkillCommand
  dsimp only
  constructor
  · split
    · exact charIds_updateCharacter _ _ _
    · rfl
  · split <;> rfl

/-- The item handler touches at most the acting character's record. -/
theorem processItemCommand_store (ch : Combatant) (pi : ParsedIntent)
    (s : Store) (rng : List ℚ) :
    (processItemCommand ch pi s rng).2.1.characters.map Combatant.character_id =
      s.characters.map Combatant.character_id ∧
    (processItemCommand ch pi s rng).2.1.instances = s.instances := by
  unfold processItemCommand
  dsimp only
  constructor
  · split
    · exact charIds_updateCharacter _ _ _
    · rfl
  · split <;> rfl

/-- A successful `processCommand` call changes neither the set of character
ids nor the instance table, and stamps the result with the command's
character id. -/
theorem processCommand_ok_store (cmd : Command) (gi : GameInstance)
    (s : Store) (rng : List ℚ) (r : ActionResult) (s' : Store)
    (rng' : List ℚ) (h : processCommand cmd gi s rng = .ok (r, s', rng')) :
    s'.characters.map Combatant.character_id =
      s.characters.map Combatant.character_id ∧
    s'.instances = s.instances ∧
    r.character_id = cmd.character_id := by
  unfold processCommand at h
  cases hc : getCharacter s cmd.character_id with
  | none => rw [hc] at h; exact absurd h (by simp)
  | some character =>
    have hcid : character.character_id = cmd.character_id := by
      have := List.find?_some hc
      rwa [beq_iff_eq] at this
    rw [hc] at h
    dsimp only at h
    cases h
    refine ⟨?_, ?_, hcid⟩
    · split
      · exact (processAttackCommand_store _ _ _ _).1
      · exact (processMoveCommand_store _ _ _ _).1
      · exact (processSkillCommand_store _ _ _ _).1
      · exact (processItemCommand_store _ _ _ _).1
      · rfl
      · rfl
    · split
      · exact (processAttackCommand_store _ _ _ _).2
      · exact (processMoveCommand_store _ _ _ _).2
      · exact (processSkillCommand_store _ _ _ _).2
      · exact (processItemCommand_store _ _ _ _).2
      · rfl
      · rfl

/-- `processCommand` throws exactly when the command's character record is
missing, and the only exception is `Character not found`. -/
theorem processCommand_error_iff (cmd : Command) (gi : GameInstance)
    (s : Store) (rng : List ℚ) (e : String)
    (h : processCommand cmd gi s rng = .error e) :
    e = "Character not found" ∧ getCharacter s cmd.character_id = none := by
  unfold processCommand at h
  cases hc : getCharacter s cmd.character_id with
  | none =>
    rw [hc] at h
    dsimp only at h
    cases h
    exact ⟨rfl, rfl⟩
  | some character => rw [hc] at h; exact absurd h (by simp)

/-- `processCommand` succeeds whenever the character record exists. -/
theorem processCommand_ok_of_found (cmd : Command) (gi : GameInstance)
    (s : Store) (rng : List ℚ) (character : Combatant)
    (hc : getCharacter s cmd.character_id = some character) :
    ∀ e, processCommand cmd gi s rng ≠ .error e := by
  intro e h
  obtain ⟨_, hnone⟩ := processCommand_error_iff cmd gi s rng e h
  rw [hc] at hnone
  exact Option.noConfusion hnone

/-- The per-command loop: character ids and the instance table are
preserved, and every command gets exactly one result attributed to its
character; a command whose character record is missing (the concrete
exception path of `processCommand`) is recorded as the fixed failed
result. -/
theorem processCommandsLoop_spec (gi : GameInstance) :
    ∀ (commands : List Command) (s : Store) (rng : List ℚ),
      (processCommandsLoop commands gi s rng).2.1.characters.map Combatant.character_id =
        s.characters.map Combatant.character_id ∧
      (processCommandsLoop commands gi s rng).2.1.instances = s.instances ∧
      List.Forall₂ (fun (cmd : Command) (r : ActionResult) =>
          r.character_id = cmd.character_id ∧
          (getCharacter s cmd.character_id = none →
            r = catchResult cmd "Character not found"))
        commands (processCommandsLoop commands gi s rng).1 := by
  intro commands
  induction commands with
  | nil => intro s rng; exact ⟨rfl, rfl, List.Forall₂.nil⟩
  | cons command rest ih =>
    intro s rng
    unfold processCommandsLoop
    cases hpc : processCommand command gi s rng with
    | error e =>
      obtain ⟨he, hnone⟩ := processCommand_error_iff command gi s rng e hpc
      dsimp only
      obtain ⟨ih1, ih2, ih3⟩ := ih s rng
      subst he
      exact ⟨ih1, ih2, List.Forall₂.cons ⟨rfl, fun _ => rfl⟩ ih3⟩
    | ok triple =>
      obtain ⟨result, s', rng'⟩ := triple
      dsimp only
      obtain ⟨hps1, hps2, hpid⟩ :=
        processCommand_ok_store command gi s rng result s' rng' hpc
      obtain ⟨t1, t2, t3⟩ := ih (updateCommand s' command.command_id result) rng'
      have hchars :
          (updateCommand s' command.command_id result).characters.map
              Combatant.character_id =
            s.characters.map Combatant.character_id := by
        rw [(updateCommand_characters s' command.command_id result).1, hps1]
      have hfound : getCharacter s command.character_id ≠ none := by
        intro hnone
        unfold processCommand at hpc
        rw [hnone] at hpc
        exact absurd hpc (by simp)
      refine ⟨by rw [t1, hchars], ?_, ?_⟩
      · rw [t2, (updateCommand_characters s' command.command_id result).2, hps2]
      · refine List.Forall₂.cons ⟨hpid, fun hnone => absurd hnone hfound⟩ ?_
        refine t3.imp ?_
        intro cmd r hr
        refine ⟨hr.1, fun hnone => hr.2 ?_⟩
        rw [getCharacter_eq_none_iff] at hnone ⊢
        rwa [hchars]

/-- Reading the instance back after the unconditional tick commit. -/
theorem getGameInstance_updateGameInstance (s : Store) (instanceId : Nat)
    (t : Nat) (n : String) :
    getGameInstance (updateGameInstance s instanceId t n) instanceId =
      (getGameInstance s instanceId).map
        (fun g => { g with current_tick := t, last_activity := n }) := by
  unfold getGameInstance updateGameInstance
  dsimp only
  generalize s.instances = l
  induction l with
  | nil => rfl
  | cons g gl ih =>
    by_cases h : (g.instance_id == instanceId)
    · have hg : g.instance_id = instanceId := by rwa [beq_iff_eq] at h
      simp [List.find?, h, hg]
    · simp only [List.map_cons, List.find?]
      rw [if_neg h]
      simp only [h, Bool.false_eq_true, if_false]
      exact ih

/-- A tick that proceeds to resolution: the instance read from the store. -/
theorem getGameInstance_instances_eq (s s' : Store) (instanceId : Nat)
    (h : s'.instances = s.instances) :
    getGameInstance s' instanceId = getGameInstance s instanceId := by
  unfold getGameInstance
  rw [h]

/-- Claim C6: once a tick proceeds to resolution, every collected command
produces exactly one result attributed to its character; the concrete
per-command exception of `processCommand` (missing character record) is
caught and recorded as the fixed failed result without stopping the
sibling commands; and `current_tick` still advances by exactly 1 in the
committed instance. -/
theorem processGameTick_perCommandFailure (instanceId : Nat) (force : Bool)
    (now : String) (s : Store) (rng : List ℚ) (gi : GameInstance)
    (hgi : getGameInstance s instanceId = some gi)
    (hactive : gi.game_state = "active")
    (hgo : ¬((getTickCommands s instanceId gi.current_tick).length <
      gi.characters.length ∧ force = false)) :
    (processGameTick instanceId force now s rng).1.success = true ∧
    List.Forall₂ (fun (cmd : Command) (r : ActionResult) =>
        r.character_id = cmd.character_id ∧
        (getCharacter s cmd.character_id = none →
          r = catchResult cmd "Character not found"))
      (getTickCommands s instanceId gi.current_tick)
      (processGameTick instanceId force now s rng).1.results ∧
    (processGameTick instanceId force now s rng).1.tick = gi.current_tick ∧
    (processGameTick instanceId force now s rng).1.next_tick =
      gi.current_tick + 1 ∧
    getGameInstance (processGameTick instanceId force now s rng).2.1 instanceId =
      some { gi with current_tick := gi.current_tick + 1, last_activity := now } := by
  obtain ⟨l1, l2, l3⟩ :=
    processCommandsLoop_spec gi (getTickCommands s instanceId gi.current_tick) s rng
  unfold processGameTick processGameTickWith
  rw [hgi]
  dsimp only
  rw [if_neg (by simp [hactive]), if_neg hgo]
  dsimp only
  refine ⟨rfl, l3, rfl, rfl, ?_⟩
  rw [getGameInstance_updateGameInstance,
    getGameInstance_instances_eq s _ instanceId l2, hgi]
  rfl

/-- Claim C6 witness: two submitted commands, one of them for a character
with no record (the exception path), `force = false`. -/
theorem processGameTick_perCommandFailure_witness :
    (processGameTick 1 false "t1" isolationStore []).1.success = true ∧
    List.Forall₂ (fun (cmd : Command) (r : ActionResult) =>
        r.character_id = cmd.character_id ∧
        (getCharacter isolationStore cmd.character_id = none →
          r = catchResult cmd "Character not found"))
      (getTickCommands isolationStore 1 duoInstance.current_tick)
      (processGameTick 1 false "t1" isolationStore []).1.results ∧
    (processGameTick 1 false "t1" isolationStore []).1.tick =
      duoInstance.current_tick ∧
    (processGameTick 1 false "t1" isolationStore []).1.next_tick =
      duoInstance.current_tick + 1 ∧
    getGameInstance (processGameTick 1 false "t1" isolationStore []).2.1 1 =
      some { duoInstance with
              current_tick := duoInstance.current_tick + 1
              last_activity := "t1" } :=
  processGameTick_perCommandFailure 1 false "t1" isolationStore [] duoInstance
    (by decide) rfl (by decide)

/-- Claim C9: the `use_item` handler with a health potion in inventory
heals 15 clamped at `max_hp`, persists the new hp and the potion-free
inventory in one character update (the potion is no longer in the stored
inventory); with no matching item it fails and changes nothing.  The
closed conjuncts evaluate the spec's concrete scenario
(`current_hp=5, max_hp=20` gives `new_hp=20`, `actualHealing=15`). -/
theorem processItemCommand_spec (character : Combatant) (pi : ParsedIntent)
    (s : Store) (rng : List ℚ) :
    (character.inventory.contains "health_potion" = true →
      (processItemCommand character pi s rng).1.success = true ∧
      (processItemCommand character pi s rng).1.item = "Health Potion" ∧
      (processItemCommand character pi s rng).1.healing =
        min character.max_hp (character.current_hp + 15) - character.current_hp ∧
      (processItemCommand character pi s rng).2.1 =
        updateCharacter s character.character_id
          { current_hp := some (min character.max_hp (character.current_hp + 15))
            inventory := some (character.inventory.filter
              (fun item => item ≠ "health_potion")) } ∧
      "health_potion" ∉ character.inventory.filter
        (fun item => item ≠ "health_potion")) ∧
    (character.inventory.contains "health_potion" = false →
      (processItemCommand character pi s rng).1.success = false ∧
      (processItemCommand character pi s rng).2.1 = s ∧
      (processItemCommand character pi s rng).2.2 = rng) ∧
    (processItemCommand potionCharacter pi potionStore rng).1.healing = 15 ∧
    getCharacter (processItemCommand potionCharacter pi potionStore rng).2.1 7 =
      some { potionCharacter with current_hp := 20, inventory := [] } := by
  refine ⟨?_, ?_, rfl, rfl⟩
  · intro hpotion
    unfold processItemCommand
    rw [hpotion]
    refine ⟨rfl, rfl, rfl, rfl, ?_⟩
    intro hmem
    rw [List.mem_filter] at hmem
    simpa using hmem.2
  · intro hpotion
    unfold processItemCommand
    rw [hpotion]
    exact ⟨rfl, rfl, rfl⟩

/-- Claim C9 witness: the wounded potion carrier with one potion, and a
character with an empty inventory. -/
theorem processItemCommand_spec_witness :
    ((potionCharacter.inventory.contains "health_potion" = true →
      (processItemCommand potionCharacter { intent := "use_item" } potionStore []).1.success = true ∧
      (processItemCommand potionCharacter { intent := "use_item" } potionStore []).1.item = "Health Potion" ∧
      (processItemCommand potionCharacter { intent := "use_item" } potionStore []).1.healing =
        min potionCharacter.max_hp (potionCharacter.current_hp + 15) - potionCharacter.current_hp ∧
      (processItemCommand potionCharacter { intent := "use_item" } potionStore []).2.1 =
        updateCharacter potionStore potionCharacter.character_id
          { current_hp := some (min potionCharacter.max_hp (potionCharacter.current_hp + 15))
            inventory := some (potionCharacter.inventory.filter
              (fun item => item ≠ "health_potion")) } ∧
      "health_potion" ∉ potionCharacter.inventory.filter
        (fun item => item ≠ "health_potion")) ∧
    (potionCharacter.inventory.contains "health_potion" = false →
      (processItemCommand potionCharacter { intent := "use_item" } potionStore []).1.success = false ∧
      (processItemCommand potionCharacter { intent := "use_item" } potionStore []).2.1 = potionStore ∧
      (processItemCommand potionCharacter { intent := "use_item" } potionStore []).2.2 = []) ∧
    (processItemCommand potionCharacter { intent := "use_item" } potionStore []).1.healing = 15 ∧
    getCharacter (processItemCommand potionCharacter { intent := "use_item" } potionStore []).2.1 7 =
      some { potionCharacter with current_hp := 20, inventory := [] }) ∧
    potionCharacter.inventory.contains "health_potion" = true :=
  ⟨processItemCommand_spec potionCharacter { intent := "use_item" } potionStore [],
   by decide⟩

/-- Claim C4 (amended): the attack handler resolves the attack against the
default goblin target with the suggested-or-default skill and applies skill
progression for that skill, persisting only the attacker's updated skill
map on a level-up; the instance and command tables are untouched and when
no level-up occurs the store is returned exactly unchanged — no damage is
ever applied or persisted for the target. -/
theorem processAttackCommand_no_target_mutation (character : Combatant)
    (pi : ParsedIntent) (s : Store) (rng : List ℚ) :
    (processAttackCommand character pi s rng).1.type = "attack" ∧
    (processAttackCommand character pi s rng).1.target = "Goblin" ∧
    (processAttackCommand character pi s rng).1.skillUsed =
      pi.skill_suggested.getD "swordsmanship" ∧
    (processAttackCommand character pi s rng).2.1.instances = s.instances ∧
    (processAttackCommand character pi s rng).2.1.commands = s.commands ∧
    ((processAttackCommand character pi s rng).1.skillProgress.leveledUp = false →
      (processAttackCommand character pi s rng).2.1 = s) ∧
    ((processAttackCommand character pi s rng).1.skillProgress.leveledUp = true →
      (processAttackCommand character pi s rng).2.1 =
        updateCharacter s character.character_id
          { skills := some (setSkill character.skills
              (pi.skill_suggested.getD "swordsmanship")
              (min (getSkill character.skills
                (pi.skill_suggested.getD "swordsmanship") + 1) 100)) }) := by
  unfold processAttackCommand
  dsimp only
  refine ⟨rfl, rfl, rfl, ?_, ?_, ?_, ?_⟩
  · split <;> rfl
  · split <;> rfl
  · intro h
    simp only [h, Bool.false_eq_true, if_false]
  · intro h
    simp only [h, if_true]

/-- The parsed-intent literal produced for an attack input (the fallback
parser's attack branch). -/
theorem processAttackCommand_no_target_mutation_witness :
    (processAttackCommand heroCharacter
        { intent := "attack", target := some "goblin",
          skill_suggested := some "swordsmanship", confidence := 8/10 }
        attackStore [19/20, 0, 1/2]).1.type = "attack" ∧
    (processAttackCommand heroCharacter
        { intent := "attack", target := some "goblin",
          skill_suggested := some "swordsmanship", confidence := 8/10 }
        attackStore [19/20, 0, 1/2]).1.target = "Goblin" ∧
    (processAttackCommand heroCharacter
        { intent := "attack", target := some "goblin",
          skill_suggested := some "swordsmanship", confidence := 8/10 }
        attackStore [19/20, 0, 1/2]).1.skillUsed =
      (({ intent := "attack", target := some "goblin",
          skill_suggested := some "swordsmanship",
          confidence := 8/10 : ParsedIntent }).skill_suggested.getD "swordsmanship") ∧
    (processAttackCommand heroCharacter
        { intent := "attack", target := some "goblin",
          skill_suggested := some "swordsmanship", confidence := 8/10 }
        attackStore [19/20, 0, 1/2]).2.1.instances = attackStore.instances ∧
    (processAttackCommand heroCharacter
        { intent := "attack", target := some "goblin",
          skill_suggested := some "swordsmanship", confidence := 8/10 }
        attackStore [19/20, 0, 1/2]).2.1.commands = attackStore.commands ∧
    ((processAttackCommand heroCharacter
        { intent := "attack", target := some "goblin",
          skill_suggested := some "swordsmanship", confidence := 8/10 }
        attackStore [19/20, 0, 1/2]).1.skillProgress.leveledUp = false →
      (processAttackCommand heroCharacter
        { intent := "attack", target := some "goblin",
          skill_suggested := some "swordsmanship", confidence := 8/10 }
        attackStore [19/20, 0, 1/2]).2.1 = attackStore) ∧
    ((processAttackCommand heroCharacter
        { intent := "attack", target := some "goblin",
          skill_suggested := some "swordsmanship", confidence := 8/10 }
        attackStore [19/20, 0, 1/2]).1.skillProgress.leveledUp = true →
      (processAttackCommand heroCharacter
        { intent := "attack", target := some "goblin",
          skill_suggested := some "swordsmanship", confidence := 8/10 }
        attackStore [19/20, 0, 1/2]).2.1 =
        updateCharacter attackStore heroCharacter.character_id
          { skills := some (setSkill heroCharacter.skills
              (({ intent := "attack", target := some "goblin",
                  skill_suggested := some "swordsmanship",
                  confidence := 8/10 : ParsedIntent }).skill_suggested.getD "swordsmanship")
              (min (getSkill heroCharacter.skills
                (({ intent := "attack", target := some "goblin",
                    skill_suggested := some "swordsmanship",
                    confidence := 8/10 : ParsedIntent }).skill_suggested.getD "swordsmanship") + 1) 100)) }) :=
  processAttackCommand_no_target_mutation heroCharacter
    { intent := "attack", target := some "goblin",
      skill_suggested := some "swordsmanship", confidence := 8/10 }
    attackStore [19/20, 0, 1/2]

/-- Claim C4 counterexample: a critical hit (attack die 20 against defense
die 1, damage 4 reported) after which the store — including the stored hp
of every record — is exactly the input store: the hit did not decrease any
stored target hp, refuting "a hit always decreases the target's stored
hp". -/
theorem processAttackCommand_hit_persists_nothing :
    (processAttackCommand heroCharacter
        { intent := "attack", target := some "goblin",
          skill_suggested := some "swordsmanship", confidence := 8/10 }
        attackStore [19/20, 0, 1/2]).1.success = true ∧
    (processAttackCommand heroCharacter
        { intent := "attack", target := some "goblin",
          skill_suggested := some "swordsmanship", confidence := 8/10 }
        attackStore [19/20, 0, 1/2]).1.damage = 4 ∧
    (processAttackCommand heroCharacter
        { intent := "attack", target := some "goblin",
          skill_suggested := some "swordsmanship", confidence := 8/10 }
        attackStore [19/20, 0, 1/2]).2.1 = attackStore := by
  have h1 : rollD20 [(19 : ℚ)/20, 0, 1/2] = (20, [0, 1/2]) := by
    unfold rollD20 nextRand
    dsimp only
    rw [show (⌊(19 : ℚ)/20 * 20⌋ : Int) = 19 from by norm_num]
    rfl
  have h2 : rollD20 [(0 : ℚ), 1/2] = (1, [1/2]) := by
    unfold rollD20 nextRand
    dsimp only
    rw [show (⌊(0 : ℚ) * 20⌋ : Int) = 0 from by norm_num]
    rfl
  have hsk : getSkill heroCharacter.skills
      ((some "swordsmanship").getD "swordsmanship") = 5 := by decide
  have h4d : decide ((nextRand [(1 : ℚ)/2]).1 * 100 <
      CombatSystem.progressChance 5) = false := by
    rw [decide_eq_false_iff_not]
    intro hlt
    rw [show (nextRand [(1 : ℚ)/2]).1 = 1/2 from rfl] at hlt
    unfold CombatSystem.progressChance at hlt
    norm_num at hlt
  unfold processAttackCommand
  dsimp only
  rw [hsk, h1]
  dsimp only
  rw [h2]
  dsimp only
  simp only [h4d, Bool.false_eq_true, if_false]
  refine ⟨?_, ?_, ?_⟩ <;> first | rfl | decide | trivial

/-- Claim C1 evaluation: the §5 hazard schedule — two `processTick`
invocations for the same instance whose instance reads both happen before
either commit (both observe `current_tick = 1`), their later storage
operations running in sequence.  Both invocations succeed, both emit a
payload for tick 1, and the instance ends at tick 2: the commit is an
unconditional update, not a compare-and-set, so neither invocation aborts
and the tick is double-processed. -/
theorem processGameTick_race_double_commit :
    getGameInstance raceStore 1 = some raceInstance ∧
    (processGameTickWith raceInstance 1 true "t1" raceStore []).1.success = true ∧
    (processGameTickWith raceInstance 1 true "t1" raceStore []).1.tick = 1 ∧
    (processGameTickWith raceInstance 1 true "t2"
        (processGameTickWith raceInstance 1 true "t1" raceStore []).2.1 []).1.success = true ∧
    (processGameTickWith raceInstance 1 true "t2"
        (processGameTickWith raceInstance 1 true "t1" raceStore []).2.1 []).1.tick = 1 ∧
    getGameInstance
        ((processGameTickWith raceInstance 1 true "t2"
            (processGameTickWith raceInstance 1 true "t1" raceStore []).2.1 []).2.1) 1 =
      some { raceInstance with current_tick := 2, last_activity := "t2" } := by
  decide

/-- Claim C3 evaluation: no permadeath transition exists.  The only room
advance in the repository (`advanceToNextRoom`) can only leave
`game_state` alone or set it to `completed`, never `failed`; and a tick in
which every participating character's status is `dead` still commits with
`room_status` the constant "Combat ongoing" verdict and `game_state` still
`active`. -/
theorem allDead_no_failed_transition :
    (∀ (gi : GameInstance) (d : GameEngine.Dungeon),
        (GameEngine.advanceToNextRoom gi d).game_state = "completed" ∨
        (GameEngine.advanceToNextRoom gi d).game_state = gi.game_state) ∧
    deadStore.characters.all (fun c => c.status == "dead") = true ∧
    (processGameTick 1 true "t1" deadStore []).1.success = true ∧
    (processGameTick 1 true "t1" deadStore []).1.room_status =
      { completed := false, advance := false, reason := "Combat ongoing" } ∧
    getGameInstance ((processGameTick 1 true "t1" deadStore []).2.1) 1 =
      some { raceInstance with current_tick := 2, last_activity := "t1" } := by
  refine ⟨?_, by decide, by decide, by decide, by decide⟩
  intro gi d
  unfold GameEngine.advanceToNextRoom
  dsimp only
  split
  · left
    rfl
  · right
    rfl
